import Mathlib

/-!
Verification development for the synthetic-data generator in
src/because/synth/gen_data.py (class Gen plus the module-level helpers
noise, data, coef, chooseMean, chooseStd and the module-level globals).

Shallow embedding conventions:
* Python floats are modelled exactly by rationals (ℚ).  round(x, 3) is
  modelled over ℚ with Python's ties-to-even rule (pyRound below); the
  binary-representation quirks of floating point are out of scope.
* Randomness is modelled by an Oracle: every primitive random event
  (numpy exponential / normal draws, random.choice, sampling from the
  realized noise distribution) reads the oracle at the current value of a
  monotone event counter (clock) stored in the state and advances it.
* The module-level mutable globals of gen_data.py (NOISE_COUNT, NOISES,
  COEF_COUNT, COEFS, RAW_EQUATIONS, varEquations, CURR_EQUATION and the
  four running statistics) are the fields of GState.  stdout prints are
  modelled by the log field.
* Python dicts NOISES / COEFS (keys are dense occurrence indices, entries
  are only ever added, never overwritten) are modelled as association
  lists with first-match lookup; insertion is cons, performed only when
  the key is absent, which matches dict semantics exactly.
* Equation strings are pre-parsed: an Equation keeps the raw text (the
  string the Python module stores and prints) together with its compiled
  form (lhs variable name, rhs expression).  compile() of a well-formed
  equation is thus the identity; SyntaxError handling is out of scope.
* exec/eval of an equation inside Gen.samples uses the caller's frame:
  assignments land in the frame-local namespace of the samples generator
  (fresh per samples() call, shared across the samples of that call) and
  lookups fall back to the module globals.  The local namespace is the
  lenv argument threaded through the evaluator; module-global numeric
  bindings (set only by exec of a model file) live in GState.env.
* File reading (open/exec of the model file) is modelled by a total
  oracle fs : String → SemFile giving the varEquations/model definitions
  the file's exec would create; I/O failure is out of scope.
-/

namespace Because

/-- Tuning parameter MIN_COEF (gen_data.py line 18). -/
def MIN_COEF : ℚ := 1/10

/-- Tuning parameter COEF_SCALE (line 19). -/
def COEF_SCALE : ℚ := 1

/-- Tuning parameter MEAN_MEAN (line 20). -/
def MEAN_MEAN : ℚ := 0

/-- Tuning parameter MEAN_SCALE (line 21). -/
def MEAN_SCALE : ℚ := 5

/-- Tuning parameter MIN_STD (line 22). -/
def MIN_STD : ℚ := 1/10

/-- Tuning parameter STD_SCALE (line 23). -/
def STD_SCALE : ℚ := 5

/-- DISTRS (line 29): the set of noise distribution kinds. -/
def DISTRS : List String := ["lognormal", "laplace", "logistic", "gumbel"]

/-- DATA_OFFSET (line 243). -/
def DATA_OFFSET : ℚ := 1

/-- The list [-1, 1, 1, 1, 1] from which coef() picks the sign (line 266). -/
def signChoices : List ℚ := [-1, 1, 1, 1, 1]

/-- The floor of a rational, computed from its reduced fraction. -/
def ratFloor (q : ℚ) : ℤ := Int.fdiv q.num q.den

/-- Python round() over ℚ: nearest integer, ties to even. -/
def pyRound (x : ℚ) : ℤ :=
  let f := ratFloor x
  let r := x - (f : ℚ)
  if r < 1/2 then f
  else if 1/2 < r then f + 1
  else if f % 2 = 0 then f else f + 1

/-- round(x, 3): round to 3 decimal digits. -/
def round3 (x : ℚ) : ℚ := (pyRound (x * 1000) : ℚ) / 1000

instance {ε α : Type} [DecidableEq ε] [DecidableEq α] :
    DecidableEq (Except ε α) := fun x y =>
  match x, y with
  | .ok a, .ok b =>
      if h : a = b then isTrue (by rw [h]) else isFalse (by simp [h])
  | .error a, .error b =>
      if h : a = b then isTrue (by rw [h]) else isFalse (by simp [h])
  | .ok _, .error _ => isFalse (by simp)
  | .error _, .ok _ => isFalse (by simp)

/-- A realized noise identity: the distribution kind, location and scale
drawn on first encounter of a noise()/data() occurrence.  The Python code
caches it as the string distType + "(" + str(mean) + "," + str(std) + ")"
(line 237); we cache the triple and render the string on demand. -/
structure NoiseSpec where
  distType : String
  mean : ℚ
  std : ℚ
deriving DecidableEq, Repr

/-- The cached string form of a noise identity (gen_data.py line 237).
Numeric rendering uses the ℚ printer in place of Python str(float). -/
def NoiseSpec.render (sp : NoiseSpec) : String :=
  sp.distType ++ "(" ++ toString sp.mean ++ "," ++ toString sp.std ++ ")"

/-- Expressions of the equation micro-language: parent variables, numeric
literals, arithmetic, and the three hooks noise(), coef(), data(). -/
inductive Expr where
  | num : ℚ → Expr
  | var : String → Expr
  | add : Expr → Expr → Expr
  | sub : Expr → Expr → Expr
  | mul : Expr → Expr → Expr
  | noiseCall : Expr
  | coefCall : Expr
  | dataCall : Expr
deriving DecidableEq, Repr

/-- One equation: its raw text (what Python keeps in varEquations and
would print) and its compiled form (assignment target and rhs). -/
structure Equation where
  text : String
  lhs : String
  rhs : Expr
deriving DecidableEq, Repr

/-- One entry of the model list: either a tuple (name, parents, observed)
or a bare variable name (observed defaults to True; gen_data.py 69-83).
The optional 4th datType component is never read by the generator core. -/
inductive ModelEntry where
  | tup : String → List String → Bool → ModelEntry
  | bare : String → ModelEntry
deriving DecidableEq, Repr

/-- Whether a model entry is observed (bare names count as observed). -/
def ModelEntry.observed : ModelEntry → Bool
  | .tup _ _ o => o
  | .bare _ => true

/-- The variable name of a model entry. -/
def ModelEntry.name : ModelEntry → String
  | .tup n _ _ => n
  | .bare n => n

/-- The observed variable names in declaration order (the varNames loop of
Gen.__init__, lines 68-84). -/
def varNamesOf (m : List ModelEntry) : List String :=
  (m.filter ModelEntry.observed).map ModelEntry.name

/-- The module-level running statistics smallestStd, largestStd,
smallestCoef, largestCoef (gen_data.py lines 250-253). -/
structure RunStats where
  smallestStd : ℚ
  largestStd : ℚ
  smallestCoef : ℚ
  largestCoef : ℚ
deriving DecidableEq, Repr

/-- Initial statistics values (lines 250-253; also the reset values in
Gen.samples lines 156-159). -/
def initStats : RunStats :=
  { smallestStd := 10 ^ 100, largestStd := 0
    smallestCoef := 10 ^ 100, largestCoef := 0 }

/-- Events printed to stdout by the module. -/
inductive LogEvent where
  | invalidEquation : String → LogEvent
  | semReport : String → LogEvent
  | coefPrint : Nat → ℚ → LogEvent
deriving DecidableEq, Repr

/-- First-match association-list lookup, modelling Python dict access for
the occurrence-indexed caches. -/
def alookup {β : Type} : List (Nat × β) → Nat → Option β
  | [], _ => none
  | (k, v) :: rest, a => if a = k then some v else alookup rest a

/-- The module-level mutable state of gen_data.py. -/
structure GState where
  NOISE_COUNT : Nat
  COEF_COUNT : Nat
  NOISES : List (Nat × NoiseSpec)
  COEFS : List (Nat × ℚ)
  RAW_EQUATIONS : List Equation
  varEquations : List Equation
  CURR_EQUATION : Nat
  stats : RunStats
  env : List (String × ℚ)
  clock : Nat
  log : List LogEvent
deriving DecidableEq, Repr

/-- The state right after `import gen_data` (module top level, lines
30-37 and 250-253): empty caches, zero counters, RAW_EQUATIONS = []. -/
def initState : GState :=
  { NOISE_COUNT := 0, COEF_COUNT := 0, NOISES := [], COEFS := []
    RAW_EQUATIONS := [], varEquations := [], CURR_EQUATION := 0
    stats := initStats, env := [], clock := 0, log := [] }

/-- The random oracle: field f at index k is the value the k-th primitive
random event would produce, were it an exponential / normal / choice /
distribution-sampling event.  Each primitive consumes one clock tick. -/
structure Oracle where
  expCoef : Nat → ℚ
  choice5 : Nat → Fin signChoices.length
  choice4 : Nat → Fin DISTRS.length
  normalDraw : Nat → ℚ
  expStd : Nat → ℚ
  sampleDraw : Nat → NoiseSpec → ℚ

/-- Statistics update performed by chooseStd (lines 283-286) on the
rounded scale value. -/
def updStdStats (v : ℚ) (s : RunStats) : RunStats :=
  let s1 := if v < s.smallestStd then { s with smallestStd := v } else s
  if v > s1.largestStd then { s1 with largestStd := v } else s1

/-- Statistics update performed by coef (lines 262-265) on the raw
(pre-sign, pre-round) magnitude. -/
def updCoefStats (c0 : ℚ) (s : RunStats) : RunStats :=
  let s1 := if c0 < s.smallestCoef then { s with smallestCoef := c0 } else s
  if c0 > s1.largestCoef then { s1 with largestCoef := c0 } else s1

/-- chooseMean (lines 276-277): round(normal(MEAN_MEAN, MEAN_SCALE), 3),
with the normal draw read from the oracle at event index k. -/
def chooseMeanVal (Ω : Oracle) (k : Nat) : ℚ := round3 (Ω.normalDraw k)

/-- chooseStd value (line 282): round(exponential(STD_SCALE*MIN_STD) +
MIN_STD, 3), with the exponential draw read at event index k. -/
def chooseStdVal (Ω : Oracle) (k : Nat) : ℚ := round3 (Ω.expStd k + MIN_STD)

/-- The fresh noise identity drawn by noise() on a cache miss (lines
234-237): kind by random.choice(DISTRS) at event k, then chooseMean at
event k+1, then chooseStd at event k+2. -/
def freshSpec (Ω : Oracle) (k : Nat) : NoiseSpec :=
  { distType := DISTRS.get (Ω.choice4 k)
    mean := chooseMeanVal Ω (k + 1)
    std := chooseStdVal Ω (k + 2) }

/-- noise() (lines 229-241).  Cache hit: sample the cached identity and
advance NOISE_COUNT.  Cache miss: draw a fresh identity (three random
events), cache it at the current NOISE_COUNT, update the std statistics
(inside chooseStd), advance NOISE_COUNT, and sample it (fourth event). -/
def noiseFn (Ω : Oracle) (st : GState) : ℚ × GState :=
  match alookup st.NOISES st.NOISE_COUNT with
  | some spec =>
      (Ω.sampleDraw st.clock spec,
       { st with NOISE_COUNT := st.NOISE_COUNT + 1, clock := st.clock + 1 })
  | none =>
      let spec := freshSpec Ω st.clock
      (Ω.sampleDraw (st.clock + 3) spec,
       { st with NOISES := (st.NOISE_COUNT, spec) :: st.NOISES
                 NOISE_COUNT := st.NOISE_COUNT + 1
                 clock := st.clock + 4
                 stats := updStdStats spec.std st.stats })

/-- data() (lines 245-247): noise() plus DATA_OFFSET, sharing the noise
counter and cache. -/
def dataFn (Ω : Oracle) (st : GState) : ℚ × GState :=
  let (v, st1) := noiseFn Ω st
  (v + DATA_OFFSET, st1)

/-- coef() (lines 256-272).  Cache hit: return the cached value, advance
COEF_COUNT.  Cache miss: magnitude = exponential(COEF_SCALE*MIN_COEF) +
MIN_COEF (event k), statistics updated with the raw magnitude, sign =
random.choice([-1,1,1,1,1]) (event k+1), value = round(sign*magnitude, 3),
cached at the current COEF_COUNT, printed, and COEF_COUNT advanced. -/
def coefFn (Ω : Oracle) (st : GState) : ℚ × GState :=
  match alookup st.COEFS st.COEF_COUNT with
  | some c => (c, { st with COEF_COUNT := st.COEF_COUNT + 1 })
  | none =>
      let c0 := Ω.expCoef st.clock + MIN_COEF
      let sign := signChoices.get (Ω.choice5 (st.clock + 1))
      let c := round3 (sign * c0)
      (c, { st with COEFS := (st.COEF_COUNT, c) :: st.COEFS
                    COEF_COUNT := st.COEF_COUNT + 1
                    clock := st.clock + 2
                    stats := updCoefStats c0 st.stats
                    log := st.log ++ [LogEvent.coefPrint st.COEF_COUNT c] })

/-- Evaluation errors raised inside an equation's exec (the only error the
micro-language can raise is an undefined variable reference). -/
inductive EvalErr where
  | nameError
deriving DecidableEq, Repr

/-- Evaluation of an equation's right-hand side, as exec would perform it:
name lookup first in the frame-local namespace lenv, then in the module
globals st.env; operands evaluate left to right; the three hooks mutate
the module state.  On an error the state reached so far is kept (side
effects before the raise persist, as in Python). -/
def evalExpr (Ω : Oracle) (lenv : List (String × ℚ)) :
    Expr → GState → Except EvalErr ℚ × GState
  | .num q, st => (.ok q, st)
  | .var x, st =>
      (match lenv.lookup x with
       | some v => .ok v
       | none =>
           match st.env.lookup x with
           | some v => .ok v
           | none => .error .nameError, st)
  | .add a b, st =>
      match evalExpr Ω lenv a st with
      | (.error e, st1) => (.error e, st1)
      | (.ok va, st1) =>
          match evalExpr Ω lenv b st1 with
          | (.error e, st2) => (.error e, st2)
          | (.ok vb, st2) => (.ok (va + vb), st2)
  | .sub a b, st =>
      match evalExpr Ω lenv a st with
      | (.error e, st1) => (.error e, st1)
      | (.ok va, st1) =>
          match evalExpr Ω lenv b st1 with
          | (.error e, st2) => (.error e, st2)
          | (.ok vb, st2) => (.ok (va - vb), st2)
  | .mul a b, st =>
      match evalExpr Ω lenv a st with
      | (.error e, st1) => (.error e, st1)
      | (.ok va, st1) =>
          match evalExpr Ω lenv b st1 with
          | (.error e, st2) => (.error e, st2)
          | (.ok vb, st2) => (.ok (va * vb), st2)
  | .noiseCall, st =>
      let (v, st1) := noiseFn Ω st
      (.ok v, st1)
  | .coefCall, st =>
      let (v, st1) := coefFn Ω st
      (.ok v, st1)
  | .dataCall, st =>
      let (v, st1) := dataFn Ω st
      (.ok v, st1)

/-- Whether the first list is a prefix of the second. -/
def isPrefixOfList : List Char → List Char → Bool
  | [], _ => true
  | _ :: _, [] => false
  | a :: as, b :: bs => a = b && isPrefixOfList as bs

/-- Whether pat occurs as a contiguous sublist. -/
def containsList (pat : List Char) : List Char → Bool
  | [] => pat.isEmpty
  | c :: rest => isPrefixOfList pat (c :: rest) || containsList pat rest

/-- Substring test (Python's `needle in s` / s.find(needle) >= 0). -/
def containsSub (s pat : String) : Bool := containsList pat.data s.data

/-- Replace the leftmost occurrence of pat by rep. -/
def replaceFirstList (pat rep : List Char) : List Char → List Char
  | [] => if pat.isEmpty then rep else []
  | c :: rest =>
      if isPrefixOfList pat (c :: rest) then rep ++ (c :: rest).drop pat.length
      else c :: replaceFirstList pat rep rest

/-- Python s.replace(old, new, 1): replace the leftmost occurrence only. -/
def replaceFirst (s pat rep : String) : String :=
  ⟨replaceFirstList pat.data rep.data s.data⟩

/-- The data() substitution loop of getSEM (lines 206-208): while the text
contains data(), replace the first occurrence with str(DATA_OFFSET) +
" + " + NOISES[NOISE_COUNT] (KeyError, modelled as none, if that index is
not cached) and then call noise() to advance NOISE_COUNT.  The loop is
expressed with fuel; each iteration removes one occurrence and the
replacement text contains none, so any fuel at least the initial
occurrence count (for instance the string length) gives the loop's exact
behaviour. -/
def semDataLoop (Ω : Oracle) : Nat → String → GState → Option (String × GState)
  | 0, s, st => some (s, st)
  | fuel + 1, s, st =>
      if containsSub s "data()" then
        match alookup st.NOISES st.NOISE_COUNT with
        | none => none
        | some spec =>
            let s1 := replaceFirst s "data()"
              (toString DATA_OFFSET ++ " + " ++ spec.render)
            let (_, st1) := noiseFn Ω st
            semDataLoop Ω fuel s1 st1
      else some (s, st)

/-- The coef() substitution loop of getSEM (lines 209-211): coef() is
called first (drawing fresh if uncached), then its value replaces the
first textual occurrence. -/
def semCoefLoop (Ω : Oracle) : Nat → String → GState → Option (String × GState)
  | 0, s, st => some (s, st)
  | fuel + 1, s, st =>
      if containsSub s "coef()" then
        let (cv, st1) := coefFn Ω st
        semCoefLoop Ω fuel (replaceFirst s "coef()" (toString cv)) st1
      else some (s, st)

/-- The noise() substitution loop of getSEM (lines 212-214). -/
def semNoiseLoop (Ω : Oracle) : Nat → String → GState → Option (String × GState)
  | 0, s, st => some (s, st)
  | fuel + 1, s, st =>
      if containsSub s "noise()" then
        match alookup st.NOISES st.NOISE_COUNT with
        | none => none
        | some spec =>
            let s1 := replaceFirst s "noise()" spec.render
            let (_, st1) := noiseFn Ω st
            semNoiseLoop Ω fuel s1 st1
      else some (s, st)

/-- One equation line of the getSEM report (lines 204-215): the text is
wrapped in quotes, then the data()/coef()/noise() occurrences are
substituted in that order. -/
def semLine (Ω : Oracle) (e : Equation) (st : GState) :
    Option (String × GState) :=
  let s := "\x27" ++ e.text ++ "\x27,"
  match semDataLoop Ω s.length s st with
  | none => none
  | some (s1, st1) =>
      match semCoefLoop Ω s1.length s1 st1 with
      | none => none
      | some (s2, st2) => semNoiseLoop Ω s2.length s2 st2

/-- The outEquations accumulation loop of getSEM over RAW_EQUATIONS. -/
def semLines (Ω : Oracle) : List Equation → GState → Option (List String × GState)
  | [], st => some ([], st)
  | e :: rest, st =>
      match semLine Ω e st with
      | none => none
      | some (s, st1) =>
          match semLines Ω rest st1 with
          | none => none
          | some (ls, st2) => some (s :: ls, st2)

/-- Gen.getSEM (lines 192-226).  It zeroes the module-global NOISE_COUNT
and COEF_COUNT (lines 201-202), replays the occurrences of each text in
RAW_EQUATIONS, appends the Stats block when any coefficient or noise
scale was drawn, and returns the joined report.  A KeyError (uncached
noise index during replay) is modelled as none; the state mutated before
such an abort is not tracked, which is harmless here because every state
this development reaches has RAW_EQUATIONS = [] and the loops never run. -/
def getSEM (Ω : Oracle) (st : GState) : Option (String × GState) :=
  let st0 := { st with NOISE_COUNT := 0, COEF_COUNT := 0 }
  match semLines Ω st0.RAW_EQUATIONS st0 with
  | none => none
  | some (lines, st1) =>
      let lines2 :=
        if st1.stats.largestCoef > 0 ∨ st1.stats.largestStd > 0 then
          lines ++
            ["Stats:",
             "  Coef Range = " ++
               toString (st1.stats.largestCoef / st1.stats.smallestCoef),
             "  Std Range = " ++
               toString (st1.stats.largestStd / st1.stats.smallestStd),
             "  Total Scale Range = " ++
               toString (st1.stats.largestCoef / st1.stats.smallestCoef *
                 (st1.stats.largestStd / st1.stats.smallestStd))]
        else lines
      some ("\n" ++ String.intercalate "\n" lines2 ++ "\n", st1)

/-- The contents a model file defines when exec'd: the varEquations list
and the model list (plus, abstractly, nothing else the generator reads). -/
structure SemFile where
  varEquations : List Equation
  model : List ModelEntry

/-- The Gen instance attributes (self.semFileName, self.sem, self.mod,
self.varNames). -/
structure Gen where
  semFileName : Option String
  sem : Option (List Equation)
  mod : Option (List ModelEntry)
  varNames : List String
deriving DecidableEq, Repr

/-- The assertion message of Gen.__init__ (line 54). -/
def assertMsg : String :=
  "Gen: Must provide semFilePath or sem and mod, but not both."

/-- The TypeError raised when the model is iterated while None (the
falsy-semFilePath trap, see Gen.init below). -/
def tyErrMsg : String :=
  "TypeError: \x27NoneType\x27 object is not iterable"

/-- Gen.__init__ (lines 45-84).  The assert admits exactly: semFilePath
alone, or sem and mod together.  A non-empty path reads the file (exec of
its contents sets the module globals varEquations and model, here via the
fs oracle); the empty path passes the assert but is falsy, so control
falls into the in-memory branch where sem and mod are None and the
'for rv in model' loop raises a TypeError.  Note the line
'RAW_EQUATIONS = varEquations' (line 67) binds a function LOCAL (there is
no 'global RAW_EQUATIONS' in __init__), so the module-global
RAW_EQUATIONS is NOT updated: the returned state keeps st.RAW_EQUATIONS. -/
def Gen.init (fs : String → SemFile) (semFilePath : Option String)
    (sem : Option (List Equation)) (mod : Option (List ModelEntry))
    (st : GState) : Except String (Gen × GState) :=
  if (semFilePath.isSome && sem.isNone && mod.isNone) ||
     (semFilePath.isNone && sem.isSome && mod.isSome) then
    match semFilePath, sem, mod with
    | some path, s, m =>
        if path = "" then Except.error tyErrMsg
        else
          let sf := fs path
          Except.ok
            ({ semFileName := some path, sem := s, mod := m
               varNames := varNamesOf sf.model },
             { st with varEquations := sf.varEquations })
    | none, some s, some m =>
        Except.ok
          ({ semFileName := none, sem := some s, mod := some m
             varNames := varNamesOf m },
           { st with varEquations := s })
    | none, _, _ =>
        -- unreachable: the assert guard forces sem and mod present here
        Except.error tyErrMsg
  else Except.error assertMsg

/-- Errors that abort a samples() run: the IndexError raised by
RAW_EQUATIONS[i] inside the except handler, a KeyError propagating out of
getSEM inside that handler, and the NameError raised by eval of an output
variable name that was never assigned. -/
inductive RunError where
  | indexError
  | keyError
  | nameError
deriving DecidableEq, Repr

/-- One iteration of the equation loop in Gen.samples (lines 169-176):
set CURR_EQUATION, exec the compiled equation; on success the assigned
variable is bound in the frame-local namespace.  On an exception the
except handler runs: it prints RAW_EQUATIONS[i] (which itself raises an
uncaught IndexError when i is out of range of the module-global list) and
then prints self.getSEM() (whose KeyError would also propagate); when the
handler completes, the loop continues with the variable left unbound. -/
def runEquation (Ω : Oracle) (i : Nat) (e : Equation)
    (lenv : List (String × ℚ)) (st : GState) :
    Except RunError (List (String × ℚ)) × GState :=
  let st0 := { st with CURR_EQUATION := i }
  match evalExpr Ω lenv e.rhs st0 with
  | (.ok v, st1) => (.ok ((e.lhs, v) :: lenv), st1)
  | (.error _, st1) =>
      match st1.RAW_EQUATIONS.get? i with
      | none => (.error .indexError, st1)
      | some raw =>
          let st2 :=
            { st1 with log := st1.log ++ [LogEvent.invalidEquation raw.text] }
          match getSEM Ω st2 with
          | none => (.error .keyError, st2)
          | some (s, st3) =>
              (.ok lenv, { st3 with log := st3.log ++ [LogEvent.semReport s] })

/-- The full equation loop of one sample (for i in range(len(cEquations))),
threading the frame-local namespace and aborting on an uncaught error. -/
def runEqList (Ω : Oracle) : List Equation → Nat → List (String × ℚ) →
    GState → Except RunError (List (String × ℚ)) × GState
  | [], _, lenv, st => (.ok lenv, st)
  | e :: rest, i, lenv, st =>
      match runEquation Ω i e lenv st with
      | (.ok lenv1, st1) => runEqList Ω rest (i + 1) lenv1 st1
      | (.error err, st1) => (.error err, st1)

/-- The output projection of one sample (lines 177-178): eval each
observed variable name, frame locals first then module globals; an
unbound name raises a NameError that aborts the run (this eval is outside
the try). -/
def projectRow (lenv genv : List (String × ℚ)) :
    List String → Except RunError (List ℚ)
  | [] => .ok []
  | n :: rest =>
      match lenv.lookup n with
      | some v => (projectRow lenv genv rest).map (fun r => v :: r)
      | none =>
          match genv.lookup n with
          | some v => (projectRow lenv genv rest).map (fun r => v :: r)
          | none => .error .nameError

/-- One sample of Gen.samples (lines 165-179): zero the per-sample
occurrence counters NOISE_COUNT and COEF_COUNT, run every equation in
declaration order, then read off the observed variables' values. -/
def samplePass (Ω : Oracle) (g : Gen) (lenv : List (String × ℚ))
    (st : GState) :
    Except RunError (List ℚ × List (String × ℚ)) × GState :=
  let st0 := { st with NOISE_COUNT := 0, COEF_COUNT := 0 }
  match runEqList Ω st0.varEquations 0 lenv st0 with
  | (.error err, st1) => (.error err, st1)
  | (.ok lenv1, st1) =>
      match projectRow lenv1 st1.env g.varNames with
      | .error err => (.error err, st1)
      | .ok row => (.ok (row, lenv1), st1)

/-- The sample loop (for sample in range(samples)): rows produced so far
plus the error that aborted the run, if any.  The generator yields rows
lazily; this models a full drain of up to n rows. -/
def samplesLoop (Ω : Oracle) (g : Gen) : Nat → List (String × ℚ) →
    GState → (List (List ℚ) × Option RunError) × GState
  | 0, _, st => (([], none), st)
  | n + 1, lenv, st =>
      match samplePass Ω g lenv st with
      | (.error err, st1) => (([], some err), st1)
      | (.ok (row, lenv1), st1) =>
          let p := samplesLoop Ω g n lenv1 st1
          ((row :: p.1.1, p.1.2), p.2)

/-- Gen.samples (lines 122-181).  'if not RAW_EQUATIONS: reset = True'
reads the module-global RAW_EQUATIONS, which Gen.__init__ never populates
(see Gen.init), so in every reachable state this forces a reset.  A reset
clears both caches and the running statistics.  Compilation of the
pre-parsed equations is the identity; the frame-local namespace starts
empty for each samples() call.  The rows are returned as rationals (the
str() formatting of the output tokens carries no information used by any
claim). -/
def Gen.samplesRun (g : Gen) (Ω : Oracle) (n : Nat) (reset : Bool)
    (st : GState) : (List (List ℚ) × Option RunError) × GState :=
  let reset1 := if st.RAW_EQUATIONS = [] then true else reset
  let st1 :=
    if reset1 then
      { st with NOISES := [], COEFS := [], stats := initStats }
    else st
  samplesLoop Ω g n [] st1

/-- The assertion message of Gen.generate (line 105; typo as in source). -/
def genAssertMsg : String :=
  "Generate requrires that Gen was constructed with a semFilePath."

/-- Gen.generate (lines 86-120): asserts that the Gen was constructed
from a file path BEFORE any sampling, then drains samples() and builds
the csv lines (header then one line per sample) and the output file name
(input path with the extension replaced by .csv).  File writing itself is
I/O and is modelled by returning the name and lines. -/
def Gen.generate (g : Gen) (Ω : Oracle) (n : Nat) (reset : Bool)
    (st : GState) : Except String ((String × List String) × GState) :=
  match g.semFileName with
  | none => Except.error genAssertMsg
  | some path =>
      let p := g.samplesRun Ω n reset st
      match p.1.2 with
      | some _ => Except.error "runtime error during sampling"
      | none =>
          let tokens := path.splitOn "."
          let outFileName := String.intercalate "." tokens.dropLast ++ ".csv"
          let header := String.intercalate "," g.varNames
          let lines :=
            header :: p.1.1.map (fun r =>
              String.intercalate "," (r.map toString))
          Except.ok ((outFileName, lines), p.2)

/-! Concrete scenarios used by the claims.  Ω0 is a fixed, fully
computable oracle: the k-th primitive event returns k for the numeric
draws, index 1 (value +1) for the sign choice, index 0 (lognormal) for
the kind choice, and mean + k for a sample of a realized distribution. -/

/-- A concrete deterministic oracle for evaluating the engine on inputs. -/
def Ω0 : Oracle :=
  { expCoef := fun k => (k : ℚ)
    choice5 := fun _ => ⟨1, by decide⟩
    choice4 := fun _ => ⟨0, by decide⟩
    normalDraw := fun k => (k : ℚ)
    expStd := fun k => (k : ℚ)
    sampleDraw := fun k sp => sp.mean + (k : ℚ) }

/-- The model-file oracle (no scenario reads a file). -/
def fs0 : String → SemFile := fun _ => ⟨[], []⟩

/-- Equation A = coef() of the single-coefficient model. -/
def eqCoefA : Equation := ⟨"A = coef()", "A", Expr.coefCall⟩

/-- The single-coefficient model: one observed variable A = coef(). -/
def c1Sem : List Equation := [eqCoefA]

/-- Model declarations for the single-coefficient model. -/
def c1Mod : List ModelEntry := [ModelEntry.tup "A" [] true]

/-- The Gen instance built from the in-memory single-coefficient model. -/
def c1G : Gen :=
  { semFileName := none, sem := some c1Sem, mod := some c1Mod
    varNames := ["A"] }

/-- Module state after constructing c1G. -/
def c1St0 : GState := { initState with varEquations := c1Sem }

/-- First samples(1, reset := false) call on the coefficient model. -/
def c1Run1 : (List (List ℚ) × Option RunError) × GState :=
  c1G.samplesRun Ω0 1 false c1St0

/-- Module state after the first call. -/
def c1St1 : GState := c1Run1.2

/-- Second samples(1, reset := false) call. -/
def c1Run2 : (List (List ℚ) × Option RunError) × GState :=
  c1G.samplesRun Ω0 1 false c1St1

/-- Module state after the second call. -/
def c1St2 : GState := c1Run2.2

/-- Equation A = B, a reference to a variable declared later. -/
def eqFwd : Equation := ⟨"A = B", "A", Expr.var "B"⟩

/-- Equation C = 1. -/
def eqC1 : Equation := ⟨"C = 1", "C", Expr.num 1⟩

/-- The forward-reference model: A = B (B never defined), then C = 1. -/
def c2Sem : List Equation := [eqFwd, eqC1]

/-- Model declarations for the forward-reference model. -/
def c2Mod : List ModelEntry :=
  [ModelEntry.tup "A" [] true, ModelEntry.tup "C" [] true]

/-- The Gen instance for the forward-reference model. -/
def c2G : Gen :=
  { semFileName := none, sem := some c2Sem, mod := some c2Mod
    varNames := ["A", "C"] }

/-- Module state after constructing c2G. -/
def c2St0 : GState := { initState with varEquations := c2Sem }

/-- samples(2, reset := false) on the forward-reference model. -/
def c2Run : (List (List ℚ) × Option RunError) × GState :=
  c2G.samplesRun Ω0 2 false c2St0

/-- The state in which the forward-referencing equation is evaluated on
the first sample (after the forced reset and the counter zeroing, with
CURR_EQUATION set to its index). -/
def c2PassSt : GState := { c2St0 with CURR_EQUATION := 0 }

/-- Equation A = noise() of the end-to-end demo model. -/
def eqA : Equation := ⟨"A = noise()", "A", Expr.noiseCall⟩

/-- Equation B = 2 * A + noise() of the end-to-end demo model. -/
def eqB : Equation :=
  ⟨"B = 2 * A + noise()", "B",
   Expr.add (Expr.mul (Expr.num 2) (Expr.var "A")) Expr.noiseCall⟩

/-- The demo model equations. -/
def c3Sem : List Equation := [eqA, eqB]

/-- The demo model declarations. -/
def c3Mod : List ModelEntry :=
  [ModelEntry.tup "A" [] true, ModelEntry.tup "B" ["A"] true]

/-- The Gen instance for the demo model. -/
def c3G : Gen :=
  { semFileName := none, sem := some c3Sem, mod := some c3Mod
    varNames := ["A", "B"] }

/-- Module state after constructing c3G. -/
def c3St0 : GState := { initState with varEquations := c3Sem }

/-- samples(1) on the demo model. -/
def c3Run : (List (List ℚ) × Option RunError) × GState :=
  c3G.samplesRun Ω0 1 false c3St0

/-- Module state after the demo sampling pass. -/
def c3St1 : GState := c3Run.2

/-- Construction of the single-coefficient Gen (in-memory mode). -/
def c1Init : Except String (Gen × GState) :=
  Gen.init fs0 none (some c1Sem) (some c1Mod) initState

/-- Construction of the forward-reference Gen (in-memory mode). -/
def c2Init : Except String (Gen × GState) :=
  Gen.init fs0 none (some c2Sem) (some c2Mod) initState

/-- Construction of the demo Gen (in-memory mode). -/
def c3Init : Except String (Gen × GState) :=
  Gen.init fs0 none (some c3Sem) (some c3Mod) initState

/-- The exact getSEM output after the demo sampling pass: only the Stats
block, no equation text at all. -/
def c3Report : String :=
  "\nStats:\n  Coef Range = 0\n  Std Range = 61/21\n  Total Scale Range = 0\n"

/-- The state the forward-reference run samples from (after the forced
reset at the head of samples()). -/
def c2RunSt : GState :=
  { c2St0 with NOISES := [], COEFS := [], stats := initStats }

/-- The state in which the forward-reference run aborts (CURR_EQUATION
was set to 0 just before the failing exec). -/
def c2ErrSt : GState := { c2St0 with CURR_EQUATION := 0 }

/-- A state with nonzero occurrence counters, as left mid-run or at the
end of a sample pass. -/
def c7St : GState :=
  { initState with NOISE_COUNT := 3, COEF_COUNT := 2, clock := 7 }

/-- A sample noise identity used to exercise the cached-reuse path. -/
def wSpec : NoiseSpec := { distType := "laplace", mean := 2, std := 3 }

/-- A state whose noise cache already holds an identity at index 0. -/
def c5WSt : GState := { initState with NOISES := [(0, wSpec)] }

/-- Whether an Except value is a success. -/
def exceptOk {ε α : Type} : Except ε α → Bool
  | .ok _ => true
  | .error _ => false

/-- st all of whose noise identities survive into st2 (the cache is only
ever extended, never rewritten). -/
def noisePres (st st2 : GState) : Prop :=
  ∀ k spec, alookup st.NOISES k = some spec → alookup st2.NOISES k = some spec

/-! Theorems.  The Batteries rational primitives are restored to their
default reducibility locally so that closed-term evaluation can decide
propositions about concrete runs. -/

attribute [local semireducible] Rat.mul Rat.add Rat.sub Rat.inv

set_option maxRecDepth 100000

lemma alookup_cons_ne {β : Type} {l : List (Nat × β)} {j k : Nat} {w : β}
    (h : k ≠ j) : alookup ((j, w) :: l) k = alookup l k := by
  simp [alookup, h]

lemma alookup_cons_self {β : Type} {l : List (Nat × β)} {j : Nat} {w : β} :
    alookup ((j, w) :: l) j = some w := by
  simp [alookup]

lemma noiseFn_cached (Ω : Oracle) (st : GState) (spec : NoiseSpec)
    (h : alookup st.NOISES st.NOISE_COUNT = some spec) :
    noiseFn Ω st =
      (Ω.sampleDraw st.clock spec,
       { st with NOISE_COUNT := st.NOISE_COUNT + 1, clock := st.clock + 1 }) := by
  unfold noiseFn
  rw [h]

lemma noiseFn_fresh (Ω : Oracle) (st : GState)
    (h : alookup st.NOISES st.NOISE_COUNT = none) :
    noiseFn Ω st =
      (Ω.sampleDraw (st.clock + 3) (freshSpec Ω st.clock),
       { st with NOISES := (st.NOISE_COUNT, freshSpec Ω st.clock) :: st.NOISES
                 NOISE_COUNT := st.NOISE_COUNT + 1
                 clock := st.clock + 4
                 stats := updStdStats (freshSpec Ω st.clock).std st.stats }) := by
  unfold noiseFn
  rw [h]

lemma coefFn_cached (Ω : Oracle) (st : GState) (c : ℚ)
    (h : alookup st.COEFS st.COEF_COUNT = some c) :
    coefFn Ω st = (c, { st with COEF_COUNT := st.COEF_COUNT + 1 }) := by
  unfold coefFn
  rw [h]

lemma coefFn_fresh (Ω : Oracle) (st : GState)
    (h : alookup st.COEFS st.COEF_COUNT = none) :
    coefFn Ω st =
      (round3 (signChoices.get (Ω.choice5 (st.clock + 1)) *
         (Ω.expCoef st.clock + MIN_COEF)),
       { st with
           COEFS := (st.COEF_COUNT,
             round3 (signChoices.get (Ω.choice5 (st.clock + 1)) *
               (Ω.expCoef st.clock + MIN_COEF))) :: st.COEFS
           COEF_COUNT := st.COEF_COUNT + 1
           clock := st.clock + 2
           stats := updCoefStats (Ω.expCoef st.clock + MIN_COEF) st.stats
           log := st.log ++ [LogEvent.coefPrint st.COEF_COUNT
             (round3 (signChoices.get (Ω.choice5 (st.clock + 1)) *
               (Ω.expCoef st.clock + MIN_COEF)))] }) := by
  unfold coefFn
  rw [h]

lemma noisePres_refl (st : GState) : noisePres st st := fun _ _ h => h

lemma noisePres_trans {a b c : GState} (h1 : noisePres a b)
    (h2 : noisePres b c) : noisePres a c :=
  fun k s h => h2 k s (h1 k s h)

lemma noisePres_noiseFn (Ω : Oracle) (st : GState) :
    noisePres st (noiseFn Ω st).2 := by
  intro k spec h
  cases hc : alookup st.NOISES st.NOISE_COUNT with
  | some sp =>
      rw [noiseFn_cached Ω st sp hc]
      exact h
  | none =>
      rw [noiseFn_fresh Ω st hc]
      have hk : k ≠ st.NOISE_COUNT := by
        intro e
        rw [← e, h] at hc
        cases hc
      show alookup ((st.NOISE_COUNT, freshSpec Ω st.clock) :: st.NOISES) k =
        some spec
      rw [alookup_cons_ne hk]
      exact h

lemma coefFn_NOISES (Ω : Oracle) (st : GState) :
    ((coefFn Ω st).2).NOISES = st.NOISES := by
  unfold coefFn
  cases alookup st.COEFS st.COEF_COUNT <;> rfl

lemma noisePres_coefFn (Ω : Oracle) (st : GState) :
    noisePres st (coefFn Ω st).2 := by
  intro k spec h
  rw [coefFn_NOISES]
  exact h

lemma dataFn_snd (Ω : Oracle) (st : GState) :
    (dataFn Ω st).2 = (noiseFn Ω st).2 := rfl

lemma noisePres_dataFn (Ω : Oracle) (st : GState) :
    noisePres st (dataFn Ω st).2 := by
  intro k spec h
  rw [dataFn_snd]
  exact noisePres_noiseFn Ω st k spec h

lemma noisePres_evalExpr (Ω : Oracle) (lenv : List (String × ℚ)) :
    ∀ (e : Expr) (st : GState), noisePres st (evalExpr Ω lenv e st).2 := by
  intro e
  induction e with
  | num q => intro st; exact noisePres_refl st
  | var x => intro st; exact noisePres_refl st
  | add a b iha ihb =>
      intro st
      have ha := iha st
      dsimp only [evalExpr]
      cases hA : evalExpr Ω lenv a st with
      | mk r1 st1 =>
          rw [hA] at ha
          cases r1 with
          | error e1 => exact ha
          | ok va =>
              dsimp only
              have hb := ihb st1
              have hab := noisePres_trans ha hb
              cases hB : evalExpr Ω lenv b st1 with
              | mk r2 st2 =>
                  rw [hB] at hab
                  cases r2 <;> exact hab
  | sub a b iha ihb =>
      intro st
      have ha := iha st
      dsimp only [evalExpr]
      cases hA : evalExpr Ω lenv a st with
      | mk r1 st1 =>
          rw [hA] at ha
          cases r1 with
          | error e1 => exact ha
          | ok va =>
              dsimp only
              have hb := ihb st1
              have hab := noisePres_trans ha hb
              cases hB : evalExpr Ω lenv b st1 with
              | mk r2 st2 =>
                  rw [hB] at hab
                  cases r2 <;> exact hab
  | mul a b iha ihb =>
      intro st
      have ha := iha st
      dsimp only [evalExpr]
      cases hA : evalExpr Ω lenv a st with
      | mk r1 st1 =>
          rw [hA] at ha
          cases r1 with
          | error e1 => exact ha
          | ok va =>
              dsimp only
              have hb := ihb st1
              have hab := noisePres_trans ha hb
              cases hB : evalExpr Ω lenv b st1 with
              | mk r2 st2 =>
                  rw [hB] at hab
                  cases r2 <;> exact hab
  | noiseCall => intro st; exact noisePres_noiseFn Ω st
  | coefCall => intro st; exact noisePres_coefFn Ω st
  | dataCall => intro st; exact noisePres_dataFn Ω st

lemma noisePres_semDataLoop (Ω : Oracle) :
    ∀ (fuel : Nat) (s : String) (st : GState) (s2 : String) (st2 : GState),
      semDataLoop Ω fuel s st = some (s2, st2) → noisePres st st2 := by
  intro fuel
  induction fuel with
  | zero =>
      intro s st s2 st2 h
      simp only [semDataLoop, Option.some.injEq, Prod.mk.injEq] at h
      rw [← h.2]
      exact noisePres_refl st
  | succ n ih =>
      intro s st s2 st2 h
      dsimp only [semDataLoop] at h
      split at h
      · cases halk : alookup st.NOISES st.NOISE_COUNT with
        | none => rw [halk] at h; cases h
        | some spec =>
            rw [halk] at h
            dsimp only at h
            exact noisePres_trans (noisePres_noiseFn Ω st) (ih _ _ _ _ h)
      · simp only [Option.some.injEq, Prod.mk.injEq] at h
        rw [← h.2]
        exact noisePres_refl st

lemma noisePres_semCoefLoop (Ω : Oracle) :
    ∀ (fuel : Nat) (s : String) (st : GState) (s2 : String) (st2 : GState),
      semCoefLoop Ω fuel s st = some (s2, st2) → noisePres st st2 := by
  intro fuel
  induction fuel with
  | zero =>
      intro s st s2 st2 h
      simp only [semCoefLoop, Option.some.injEq, Prod.mk.injEq] at h
      rw [← h.2]
      exact noisePres_refl st
  | succ n ih =>
      intro s st s2 st2 h
      dsimp only [semCoefLoop] at h
      split at h
      · exact noisePres_trans (noisePres_coefFn Ω st) (ih _ _ _ _ h)
      · simp only [Option.some.injEq, Prod.mk.injEq] at h
        rw [← h.2]
        exact noisePres_refl st

lemma noisePres_semNoiseLoop (Ω : Oracle) :
    ∀ (fuel : Nat) (s : String) (st : GState) (s2 : String) (st2 : GState),
      semNoiseLoop Ω fuel s st = some (s2, st2) → noisePres st st2 := by
  intro fuel
  induction fuel with
  | zero =>
      intro s st s2 st2 h
      simp only [semNoiseLoop, Option.some.injEq, Prod.mk.injEq] at h
      rw [← h.2]
      exact noisePres_refl st
  | succ n ih =>
      intro s st s2 st2 h
      dsimp only [semNoiseLoop] at h
      split at h
      · cases halk : alookup st.NOISES st.NOISE_COUNT with
        | none => rw [halk] at h; cases h
        | some spec =>
            rw [halk] at h
            dsimp only at h
            exact noisePres_trans (noisePres_noiseFn Ω st) (ih _ _ _ _ h)
      · simp only [Option.some.injEq, Prod.mk.injEq] at h
        rw [← h.2]
        exact noisePres_refl st

lemma noisePres_semLine (Ω : Oracle) (e : Equation) (st : GState)
    (s2 : String) (st2 : GState) (h : semLine Ω e st = some (s2, st2)) :
    noisePres st st2 := by
  dsimp only [semLine] at h
  cases h1 : semDataLoop Ω ("\x27" ++ e.text ++ "\x27,").length
      ("\x27" ++ e.text ++ "\x27,") st with
  | none => rw [h1] at h; cases h
  | some p1 =>
      rw [h1] at h
      dsimp only at h
      cases h2 : semCoefLoop Ω p1.1.length p1.1 p1.2 with
      | none =>
          obtain ⟨sa, sta⟩ := p1
          rw [h2] at h
          cases h
      | some p2 =>
          obtain ⟨sa, sta⟩ := p1
          rw [h2] at h
          dsimp only at h
          obtain ⟨sb, stb⟩ := p2
          exact noisePres_trans (noisePres_semDataLoop Ω _ _ _ _ _ h1)
            (noisePres_trans (noisePres_semCoefLoop Ω _ _ _ _ _ h2)
              (noisePres_semNoiseLoop Ω _ _ _ _ _ h))

lemma noisePres_semLines (Ω : Oracle) :
    ∀ (es : List Equation) (st : GState) (ls : List String) (st2 : GState),
      semLines Ω es st = some (ls, st2) → noisePres st st2 := by
  intro es
  induction es with
  | nil =>
      intro st ls st2 h
      simp only [semLines, Option.some.injEq, Prod.mk.injEq] at h
      rw [← h.2]
      exact noisePres_refl st
  | cons e rest ih =>
      intro st ls st2 h
      dsimp only [semLines] at h
      cases h1 : semLine Ω e st with
      | none => rw [h1] at h; cases h
      | some p1 =>
          rw [h1] at h
          dsimp only at h
          cases h2 : semLines Ω rest p1.2 with
          | none =>
              obtain ⟨sa, sta⟩ := p1
              rw [h2] at h
              cases h
          | some p2 =>
              obtain ⟨sa, sta⟩ := p1
              rw [h2] at h
              obtain ⟨lsb, stb⟩ := p2
              simp only [Option.some.injEq, Prod.mk.injEq] at h
              rw [← h.2]
              exact noisePres_trans (noisePres_semLine Ω _ _ _ _ h1)
                (ih _ _ _ h2)

lemma noisePres_getSEM (Ω : Oracle) (st : GState) (s2 : String)
    (st2 : GState) (h : getSEM Ω st = some (s2, st2)) : noisePres st st2 := by
  dsimp only [getSEM] at h
  cases h1 : semLines Ω
      ({ st with NOISE_COUNT := 0, COEF_COUNT := 0 } : GState).RAW_EQUATIONS
      { st with NOISE_COUNT := 0, COEF_COUNT := 0 } with
  | none => rw [h1] at h; cases h
  | some p1 =>
      rw [h1] at h
      obtain ⟨ls, stb⟩ := p1
      simp only [Option.some.injEq, Prod.mk.injEq] at h
      rw [← h.2]
      have h0 : noisePres st { st with NOISE_COUNT := 0, COEF_COUNT := 0 } :=
        fun _ _ hh => hh
      exact noisePres_trans h0 (noisePres_semLines Ω _ _ _ _ h1)

lemma noisePres_runEquation (Ω : Oracle) (i : Nat) (e : Equation)
    (lenv : List (String × ℚ)) (st : GState) :
    noisePres st (runEquation Ω i e lenv st).2 := by
  dsimp only [runEquation]
  have h0 : noisePres st { st with CURR_EQUATION := i } := fun _ _ h => h
  cases hE : evalExpr Ω lenv e.rhs { st with CURR_EQUATION := i } with
  | mk r st1 =>
      have h1 : noisePres st st1 := by
        have := noisePres_evalExpr Ω lenv e.rhs { st with CURR_EQUATION := i }
        rw [hE] at this
        exact noisePres_trans h0 this
      cases r with
      | ok v => exact h1
      | error err =>
          dsimp only
          cases st1.RAW_EQUATIONS.get? i with
          | none => exact h1
          | some raw =>
              dsimp only
              cases hG : getSEM Ω
                  { st1 with
                    log := st1.log ++ [LogEvent.invalidEquation raw.text] } with
              | none => exact h1
              | some p =>
                  obtain ⟨s3, st3⟩ := p
                  have h2 : noisePres st1
                      { st1 with
                        log := st1.log ++ [LogEvent.invalidEquation raw.text] } :=
                    fun _ _ h => h
                  have h3 := noisePres_getSEM Ω _ _ _ hG
                  have h4 : noisePres st3
                      { st3 with log := st3.log ++ [LogEvent.semReport s3] } :=
                    fun _ _ h => h
                  exact noisePres_trans h1 (noisePres_trans h2
                    (noisePres_trans h3 h4))

lemma noisePres_runEqList (Ω : Oracle) :
    ∀ (es : List Equation) (i : Nat) (lenv : List (String × ℚ))
      (st : GState), noisePres st (runEqList Ω es i lenv st).2 := by
  intro es
  induction es with
  | nil => intro i lenv st; exact noisePres_refl st
  | cons e rest ih =>
      intro i lenv st
      dsimp only [runEqList]
      have h1 := noisePres_runEquation Ω i e lenv st
      cases hR : runEquation Ω i e lenv st with
      | mk r st1 =>
          rw [hR] at h1
          cases r with
          | ok lenv1 => exact noisePres_trans h1 (ih (i + 1) lenv1 st1)
          | error err => exact h1

lemma noisePres_samplePass (Ω : Oracle) (g : Gen) (lenv : List (String × ℚ))
    (st : GState) : noisePres st (samplePass Ω g lenv st).2 := by
  dsimp only [samplePass]
  have h0 : noisePres st { st with NOISE_COUNT := 0, COEF_COUNT := 0 } :=
    fun _ _ h => h
  have h1 := noisePres_runEqList Ω
    ({ st with NOISE_COUNT := 0, COEF_COUNT := 0 } : GState).varEquations 0 lenv
    { st with NOISE_COUNT := 0, COEF_COUNT := 0 }
  cases hR : runEqList Ω
      ({ st with NOISE_COUNT := 0, COEF_COUNT := 0 } : GState).varEquations 0
      lenv { st with NOISE_COUNT := 0, COEF_COUNT := 0 } with
  | mk r st1 =>
      rw [hR] at h1
      have h2 := noisePres_trans h0 h1
      cases r with
      | error err => exact h2
      | ok lenv1 =>
          dsimp only
          cases projectRow lenv1 st1.env g.varNames with
          | error err => exact h2
          | ok row => exact h2

lemma noisePres_samplesLoop (Ω : Oracle) (g : Gen) :
    ∀ (n : Nat) (lenv : List (String × ℚ)) (st : GState),
      noisePres st (samplesLoop Ω g n lenv st).2 := by
  intro n
  induction n with
  | zero => intro lenv st; exact noisePres_refl st
  | succ m ih =>
      intro lenv st
      dsimp only [samplesLoop]
      have h1 := noisePres_samplePass Ω g lenv st
      cases hP : samplePass Ω g lenv st with
      | mk r st1 =>
          rw [hP] at h1
          cases r with
          | error err => exact h1
          | ok p => exact noisePres_trans h1 (ih p.2 st1)

/-- Claim C1 (code bug).  The docstring of Gen.samples promises that with
reset = False a second call returns new samples from the original
(cached) parameter distribution, and the first-call branch comment says
only the first call is treated as a reset.  In fact the module-global
RAW_EQUATIONS is never populated (Gen.__init__ line 67 assigns a
function-local), so RAW_EQUATIONS is [] on every call, the first-call
branch fires every time, the coefficient cache is cleared, and the second
reset = False call draws a fresh coefficient: 1/10 the first time, 21/10
the second, instead of reusing 1/10. -/
theorem c1_reset_ignored_second_call_redraws :
    c1Init = Except.ok (c1G, c1St0) ∧
    c1St0.RAW_EQUATIONS = [] ∧
    c1Run1.1 = ([[(1 : ℚ)/10]], none) ∧
    alookup c1St1.COEFS 0 = some ((1 : ℚ)/10) ∧
    c1Run2.1 = ([[(21 : ℚ)/10]], none) ∧
    alookup c1St2.COEFS 0 = some ((21 : ℚ)/10) := by
  decide

/-- Claim C2 (code bug).  The except handler of Gen.samples is built to
print the offending equation text and continue, but its first statement
indexes the module-global RAW_EQUATIONS, which is still empty (the
Gen.__init__ slip), so the handler itself raises an uncaught IndexError:
on the forward-reference model, samples(2) aborts during the first
equation of the first sample, yields no rows, logs nothing, and never
evaluates the remaining equation. -/
theorem c2_equation_error_aborts_batch :
    c2Init = Except.ok (c2G, c2St0) ∧
    c2Run.1 = ([], some RunError.indexError) ∧
    c2Run.2.log = [] ∧
    c2Run.2 = c2ErrSt := by
  decide

/-- Claim C3 (code bug).  Gen.getSEM walks the module-global
RAW_EQUATIONS, which Gen.__init__ never populates, so even after a
successful sampling pass that drew two noise identities the report
contains no equation line at all, let alone the original texts with their
noise() occurrences substituted: it is exactly the Stats block. -/
theorem c3_getSEM_reports_no_equations :
    c3Init = Except.ok (c3G, c3St0) ∧
    c3Run.1 = ([[(4 : ℚ), 20]], none) ∧
    c3St1.RAW_EQUATIONS = [] ∧
    c3St1.NOISES ≠ [] ∧
    getSEM Ω0 c3St1 =
      some (c3Report, { c3St1 with NOISE_COUNT := 0, COEF_COUNT := 0 }) ∧
    containsSub c3Report eqA.text = false ∧
    containsSub c3Report eqB.text = false ∧
    containsSub c3Report "noise()" = false := by
  decide

/-- Claim C7, counterexample.  getSEM does not use a counter of its own:
it zeroes the module-global NOISE_COUNT and COEF_COUNT that the sampling
pass uses (gen_data.py lines 201-202), so a state with counters 3 and 2
comes back from getSEM with counters 0 and 0, not unchanged. -/
theorem c7_counterexample_getSEM_clobbers_counters :
    (getSEM Ω0 c7St).map (fun p => (p.2.NOISE_COUNT, p.2.COEF_COUNT)) =
      some (0, 0) ∧
    (c7St.NOISE_COUNT, c7St.COEF_COUNT) = (3, 2) := by
  decide

/-- Claim C8, counterexample.  Gen(semFilePath = "") supplies semFilePath
alone, so by the claim construction must succeed; in fact the assert
passes but 'if self.semFileName:' is False for the empty string, control
falls into the in-memory branch with sem = mod = None, and iterating
model raises a TypeError: construction fails. -/
theorem c8_counterexample_empty_path :
    Gen.init fs0 (some "") none none initState = Except.error tyErrMsg ∧
    tyErrMsg ≠ assertMsg := by
  decide

/-- Claim C8 as amended: construction succeeds exactly when either a
NON-EMPTY semFilePath alone is given, or both sem and mod are given with
semFilePath absent; every other combination (mixed or missing modes, or
the empty path) raises at construction, before any sampling. -/
theorem c8_construction_modes (fs : String → SemFile) (p : Option String)
    (s : Option (List Equation)) (m : Option (List ModelEntry))
    (st : GState) :
    exceptOk (Gen.init fs p s m st) = true ↔
      ((p ≠ none ∧ p ≠ some "" ∧ s = none ∧ m = none) ∨
       (p = none ∧ s ≠ none ∧ m ≠ none)) := by
  cases p with
  | none =>
      cases s with
      | none => simp [Gen.init, exceptOk]
      | some s0 =>
          cases m with
          | none => simp [Gen.init, exceptOk]
          | some m0 => simp [Gen.init, exceptOk]
  | some path =>
      cases s with
      | none =>
          cases m with
          | none =>
              by_cases hp : path = ""
              · rw [hp]
                simp [Gen.init, exceptOk]
              · simp [Gen.init, exceptOk, hp]
          | some m0 => simp [Gen.init, exceptOk]
      | some s0 => cases m <;> simp [Gen.init, exceptOk]

/-- Claim C4, counterexample.  On the forward-reference model A = B;
C = 1 with two requested samples, the claimed behaviour is an
undefined-reference failure on each of the two samples; in fact the run
aborts during the first sample with an IndexError from the error handler
itself, yields no rows, and logs no per-sample failure at all, so no
failure is reported for the second sample (nothing silently succeeds
either: the batch dies). -/
theorem c4_counterexample_run_aborts :
    c2Run.1 = ([], some RunError.indexError) ∧
    c2Run.2.log = [] ∧
    (evalExpr Ω0 [] eqFwd.rhs c2PassSt).1 = Except.error EvalErr.nameError := by
  decide

/-- Claim C4 as amended: for every positive sample count and either reset
flag, a model whose first equation references a later-declared variable
makes the run abort during the first sample (the undefined-reference
NameError is caught, but the handler's RAW_EQUATIONS[i] lookup raises an
uncaught IndexError), so the run yields no rows and the equation never
silently succeeds within that run. -/
theorem c4_forward_reference_aborts_first_sample (n : Nat) (r : Bool) :
    (c2G.samplesRun Ω0 (n + 1) r c2St0).1 = ([], some RunError.indexError) ∧
    (evalExpr Ω0 [] eqFwd.rhs c2PassSt).1 = Except.error EvalErr.nameError := by
  constructor
  · show (samplesLoop Ω0 c2G (n + 1) [] c2RunSt).1 =
      ([], some RunError.indexError)
    simp only [samplesLoop]
    rw [show samplePass Ω0 c2G [] c2RunSt =
      (Except.error RunError.indexError, c2ErrSt) from by decide]
  · decide

/-- Claim C5 (confirmed).  Within one parameter generation: (1) a noise()
call that finds an identity cached at the current occurrence index
samples from exactly that identity (kind, location and scale as cached)
and changes nothing but the occurrence counter and the event clock — in
particular the cache is untouched; (2) every identity present in the
cache survives an arbitrary number of sample passes of the run, so every
later noise() call reaching that index sees the same identity; (3) a
sample pass is independent of the incoming occurrence counters: they are
restarted at zero at the beginning of every sample's evaluation pass. -/
theorem c5_noise_identity_stable :
    (∀ (Ω : Oracle) (st : GState) (spec : NoiseSpec),
        alookup st.NOISES st.NOISE_COUNT = some spec →
        noiseFn Ω st = (Ω.sampleDraw st.clock spec,
          { st with NOISE_COUNT := st.NOISE_COUNT + 1,
                    clock := st.clock + 1 })) ∧
    (∀ (Ω : Oracle) (g : Gen) (n : Nat) (lenv : List (String × ℚ))
        (st : GState) (k : Nat) (spec : NoiseSpec),
        alookup st.NOISES k = some spec →
        alookup ((samplesLoop Ω g n lenv st).2).NOISES k = some spec) ∧
    (∀ (Ω : Oracle) (g : Gen) (lenv : List (String × ℚ)) (st : GState)
        (a b : Nat),
        samplePass Ω g lenv { st with NOISE_COUNT := a, COEF_COUNT := b } =
          samplePass Ω g lenv st) := by
  refine ⟨?_, ?_, ?_⟩
  · intro Ω st spec h
    exact noiseFn_cached Ω st spec h
  · intro Ω g n lenv st k spec h
    exact noisePres_samplesLoop Ω g n lenv st k spec h
  · intro Ω g lenv st a b
    rfl

/-- Claim C5, witness: the cached-identity reuse, the cache survival
across three sample passes, and the counter restart, each at a concrete
state whose cache holds wSpec at index 0. -/
theorem c5_witness :
    noiseFn Ω0 c5WSt = (Ω0.sampleDraw c5WSt.clock wSpec,
      { c5WSt with NOISE_COUNT := c5WSt.NOISE_COUNT + 1,
                   clock := c5WSt.clock + 1 }) ∧
    alookup ((samplesLoop Ω0 c1G 3 [] c5WSt).2).NOISES 0 = some wSpec ∧
    samplePass Ω0 c1G [] { c5WSt with NOISE_COUNT := 7, COEF_COUNT := 9 } =
      samplePass Ω0 c1G [] c5WSt :=
  ⟨c5_noise_identity_stable.1 Ω0 c5WSt wSpec (by decide),
   c5_noise_identity_stable.2.1 Ω0 c1G 3 [] c5WSt 0 wSpec (by decide),
   c5_noise_identity_stable.2.2 Ω0 c1G [] c5WSt 7 9⟩

/-- Claim C6 (confirmed).  A freshly drawn coefficient (cache miss at the
current occurrence index) equals round3(sign * (e + MIN_COEF)) where e is
the exponential(COEF_SCALE*MIN_COEF) draw and sign is the element of
[-1, 1, 1, 1, 1] picked by random.choice — a 5-element list with exactly
one -1, so the sign is negative with probability 1/5 — and exactly this
rounded value is cached and returned. -/
theorem c6_coef_draw_formula (Ω : Oracle) (st : GState)
    (h : alookup st.COEFS st.COEF_COUNT = none) :
    (coefFn Ω st).1 =
      round3 (signChoices.get (Ω.choice5 (st.clock + 1)) *
        (Ω.expCoef st.clock + MIN_COEF)) ∧
    alookup ((coefFn Ω st).2).COEFS st.COEF_COUNT = some ((coefFn Ω st).1) ∧
    signChoices = [-1, 1, 1, 1, 1] ∧
    signChoices.count (-1) = 1 ∧
    signChoices.length = 5 := by
  rw [coefFn_fresh Ω st h]
  refine ⟨rfl, ?_, by decide, by decide, by decide⟩
  exact alookup_cons_self

/-- Claim C6, witness: the formula evaluated at the empty cache of the
initial state under the concrete oracle. -/
theorem c6_witness :
    (coefFn Ω0 initState).1 =
      round3 (signChoices.get (Ω0.choice5 (initState.clock + 1)) *
        (Ω0.expCoef initState.clock + MIN_COEF)) ∧
    alookup ((coefFn Ω0 initState).2).COEFS initState.COEF_COUNT =
      some ((coefFn Ω0 initState).1) ∧
    signChoices = [-1, 1, 1, 1, 1] ∧
    signChoices.count (-1) = 1 ∧
    signChoices.length = 5 :=
  c6_coef_draw_formula Ω0 initState (by decide)

/-- Claim C9 (confirmed).  data() returns exactly noise() + DATA_OFFSET
and ends in exactly the state noise() ends in: it advances the same
NOISE_COUNT by one, afterwards the identity at the consumed index is
cached, and no other cache entry changes — one NoiseDraw identity per
data() occurrence. -/
theorem c9_data_is_noise_plus_offset (Ω : Oracle) (st : GState) :
    dataFn Ω st = ((noiseFn Ω st).1 + DATA_OFFSET, (noiseFn Ω st).2) ∧
    ((noiseFn Ω st).2).NOISE_COUNT = st.NOISE_COUNT + 1 ∧
    (alookup ((noiseFn Ω st).2).NOISES st.NOISE_COUNT).isSome = true ∧
    (∀ k, k ≠ st.NOISE_COUNT →
      alookup ((noiseFn Ω st).2).NOISES k = alookup st.NOISES k) := by
  refine ⟨rfl, ?_, ?_, ?_⟩
  · cases hc : alookup st.NOISES st.NOISE_COUNT with
    | some sp => rw [noiseFn_cached Ω st sp hc]
    | none => rw [noiseFn_fresh Ω st hc]
  · cases hc : alookup st.NOISES st.NOISE_COUNT with
    | some sp =>
        rw [noiseFn_cached Ω st sp hc]
        show (alookup st.NOISES st.NOISE_COUNT).isSome = true
        rw [hc]
        rfl
    | none =>
        rw [noiseFn_fresh Ω st hc]
        show (alookup ((st.NOISE_COUNT, freshSpec Ω st.clock) :: st.NOISES)
          st.NOISE_COUNT).isSome = true
        rw [alookup_cons_self]
        rfl
  · intro k hk
    cases hc : alookup st.NOISES st.NOISE_COUNT with
    | some sp => rw [noiseFn_cached Ω st sp hc]
    | none =>
        rw [noiseFn_fresh Ω st hc]
        show alookup ((st.NOISE_COUNT, freshSpec Ω st.clock) :: st.NOISES) k =
          alookup st.NOISES k
        rw [alookup_cons_ne hk]

/-- Claim C9, witness: the relation evaluated at the initial state under
the concrete oracle, with the frame condition instantiated at index 5. -/
theorem c9_witness :
    dataFn Ω0 initState =
      ((noiseFn Ω0 initState).1 + DATA_OFFSET, (noiseFn Ω0 initState).2) ∧
    ((noiseFn Ω0 initState).2).NOISE_COUNT = initState.NOISE_COUNT + 1 ∧
    (alookup ((noiseFn Ω0 initState).2).NOISES initState.NOISE_COUNT).isSome
      = true ∧
    alookup ((noiseFn Ω0 initState).2).NOISES 5 =
      alookup initState.NOISES 5 :=
  ⟨(c9_data_is_noise_plus_offset Ω0 initState).1,
   (c9_data_is_noise_plus_offset Ω0 initState).2.1,
   (c9_data_is_noise_plus_offset Ω0 initState).2.2.1,
   (c9_data_is_noise_plus_offset Ω0 initState).2.2.2 5 (by decide)⟩

/-- Claim C7 as amended: getSEM reuses the sampling engine's global
occurrence counters instead of independent ones — it zeroes NOISE_COUNT
and COEF_COUNT and advances them through its replay, so the counters are
not restored; since the module-global RAW_EQUATIONS is permanently empty
there is nothing to replay and getSEM's net effect on the module state is
exactly the zeroing of both counters.  The engine itself only survives
this because every sample pass re-zeroes the counters first. -/
theorem c7_getSEM_zeroes_engine_counters (Ω : Oracle) (st : GState)
    (h : st.RAW_EQUATIONS = []) :
    (getSEM Ω st).map Prod.snd =
      some { st with NOISE_COUNT := 0, COEF_COUNT := 0 } := by
  dsimp only [getSEM]
  rw [h]
  dsimp only [semLines]
  rfl

/-- Claim C7, witness for the amended statement: the concrete state with
counters 3 and 2 comes back with both counters zeroed and nothing else
changed. -/
theorem c7_witness :
    (getSEM Ω0 c7St).map Prod.snd =
      some { c7St with NOISE_COUNT := 0, COEF_COUNT := 0 } :=
  c7_getSEM_zeroes_engine_counters Ω0 c7St (by decide)

/-- Claim C10 (confirmed).  A Gen built in-memory (sem and mod, no file
path) has semFileName = None, so generate() fails its assertion
immediately — before any sampling and before producing any file output —
for every sample count, reset flag and state; samples() on the very same
Gen works (the single-coefficient in-memory model yields its row with no
error). -/
theorem c10_generate_requires_file_path :
    (∀ (fs : String → SemFile) (sem : List Equation)
       (mod : List ModelEntry) (st : GState) (g : Gen) (st1 : GState),
        Gen.init fs none (some sem) (some mod) st = Except.ok (g, st1) →
        ∀ (Ω : Oracle) (n : Nat) (r : Bool) (st2 : GState),
          g.generate Ω n r st2 = Except.error genAssertMsg) ∧
    (c1G.samplesRun Ω0 1 false c1St0).1 = ([[(1 : ℚ)/10]], none) := by
  constructor
  · intro fs sem mod st g st1 h Ω n r st2
    simp only [Gen.init, Option.isSome_none, Option.isNone_none,
      Option.isSome_some, Option.isNone_some, Bool.false_and, Bool.true_and,
      Bool.and_true, Bool.false_or, Bool.and_self, if_true,
      Except.ok.injEq, Prod.mk.injEq] at h
    obtain ⟨hg, _⟩ := h
    rw [← hg]
    rfl
  · decide

/-- Claim C10, witness: the concrete in-memory Gen refuses generate() for
any arguments while its samples() call succeeds. -/
theorem c10_witness :
    c1G.generate Ω0 5 false c1St0 = Except.error genAssertMsg ∧
    (c1G.samplesRun Ω0 1 false c1St0).1 = ([[(1 : ℚ)/10]], none) :=
  ⟨c10_generate_requires_file_path.1 fs0 c1Sem c1Mod initState c1G c1St0
     (by decide) Ω0 5 false c1St0,
   c10_generate_requires_file_path.2⟩

end Because
